import Mathlib

/-!
Shallow embedding of the neono container library.

Source of authority: `src/libs/result/src/Result.ts` (the Fallible-Result
container and all of its combinators).  The Optional-Value container's own
source file (`Option.ts`) is not present in the repository snapshot — only
its test file is — so the handful of Option operations needed here
(`Some`/`None`, `isSome`/`isNone`, `okOr`, `transpose`) are modelled from the
spec (sections 3 and 4.1) and cross-checked against `Option.test.ts`.

Conventions of the embedding:
* TypeScript tagged unions become Lean inductives; the `_tag` field is the
  constructor.
* Curried combinators (`f(x)` returning a function of `self`) become ordinary
  curried Lean functions.
* `throw new Error(msg)` becomes the `Thrown` sum type: a combinator that can
  raise returns `Thrown A`, with `.thrown msg` for the raising path.
  `JSON.stringify` is a host-language serializer and is passed in explicitly
  as a `stringify` function argument.
* The variadic `combine(...results)` becomes a function on `List`.
-/

namespace Neono

/-- Modelled from the spec: the Optional-Value container type itself lives in
the absent `Option.ts`; spec section 3 describes it as a closed two-variant
sum (`Present`/`Absent`), and `Option.test.ts` shows the code's tags are
`Some` (with a `value` payload) and `None` (no payload). -/
inductive Option (T : Type) where
  | Some (value : T)
  | None
deriving DecidableEq, Repr

/-- Fallible-Result container, from `Result.ts` lines 11–15:
`Ok` carries `value : T`, `Err` carries `error : E`. -/
inductive Result (T E : Type) where
  | Ok (value : T)
  | Err (error : E)
deriving DecidableEq, Repr

/-- Outcome of running a possibly-throwing operation: either a returned value
or a raised error carrying its message string. -/
inductive Thrown (A : Type) where
  | ret (a : A)
  | thrown (message : String)
deriving DecidableEq, Repr

/-- Whether a `Thrown` outcome is the raising one. -/
def Thrown.isThrown {A : Type} : Thrown A → Bool
  | .ret _ => false
  | .thrown _ => true

variable {T E U F : Type}

/-- Modelled from the spec: `isPresent` variant test of the absent
`Option.ts` (spec section 4.1, `isSome` in the tests). -/
def Option.isSome : Option T → Bool
  | .Some _ => true
  | .None => false

/-- Modelled from the spec: `isAbsent` variant test of the absent
`Option.ts` (spec section 4.1, `isNone` in the tests). -/
def Option.isNone : Option T → Bool
  | .Some _ => false
  | .None => true

/-- Modelled from the spec: `okOr` of the absent `Option.ts`.  Spec
section 4.1: `Success(value)` if Present, else `Failure(err)`; matches the
`okOr` cases in `Option.test.ts`. -/
def Option.okOr (err : E) : Option T → Result T E
  | .Some v => .Ok v
  | .None => .Err err

/-- Modelled from the spec: `transpose` of the absent `Option.ts`.  Spec
section 4.1: `Success(Option T)` if Absent or inner Success, `Failure E` if
inner Failure; matches the three `transpose` cases in `Option.test.ts`. -/
def Option.transpose : Option (Result T E) → Result (Option T) E
  | .Some (.Ok v) => .Ok (.Some v)
  | .Some (.Err e) => .Err e
  | .None => .Ok .None

/-- From `Result.ts` `isOk`: tag test for the `Ok` variant. -/
def Result.isOk : Result T E → Bool
  | .Ok _ => true
  | .Err _ => false

/-- From `Result.ts` `isErr`: tag test for the `Err` variant. -/
def Result.isErr : Result T E → Bool
  | .Ok _ => false
  | .Err _ => true

/-- From `Result.ts` `isOkAnd`: false on `Err`, else the predicate applied to
the value. -/
def Result.isOkAnd (predicate : T → Bool) (self : Result T E) : Bool :=
  match self with
  | .Err _ => false
  | .Ok v => predicate v

/-- From `Result.ts` `isErrAnd`: false on `Ok`, else the predicate applied to
the error. -/
def Result.isErrAnd (predicate : E → Bool) (self : Result T E) : Bool :=
  match self with
  | .Ok _ => false
  | .Err e => predicate e

/-- Loop body of `Result.ts` `combine`: scans the remaining results left to
right, pushing each `Ok` value onto the accumulator `values`; on the first
`Err` it returns that result, and when the list is exhausted it returns
`Ok values`. -/
def Result.combineGo (values : List T) : List (Result T E) → Result (List T) E
  | [] => .Ok values
  | result :: rest =>
    match result with
    | .Ok v => Result.combineGo (values ++ [v]) rest
    | .Err e => .Err e

/-- From `Result.ts` `combine` (lines 47–61): starts the scan with an empty
`values` accumulator. -/
def Result.combine (results : List (Result T E)) : Result (List T) E :=
  Result.combineGo [] results

/-- From `Result.ts` `map`: `Ok (fn value)` on `Ok`, unchanged `Err`
otherwise. -/
def Result.map (fn : T → U) (self : Result T E) : Result U E :=
  match self with
  | .Err e => .Err e
  | .Ok v => .Ok (fn v)

/-- From `Result.ts` `mapErr`: `Err (fn error)` on `Err`, unchanged `Ok`
otherwise. -/
def Result.mapErr (fn : E → F) (self : Result T E) : Result T F :=
  match self with
  | .Ok v => .Ok v
  | .Err e => .Err (fn e)

/-- From `Result.ts` `mapOr` (lines 77–82): `Ok defaultValue` on `Err`, else
`Ok (fn value)` — note both branches wrap in `Ok`. -/
def Result.mapOr (defaultValue : U) (fn : T → U) (self : Result T E) :
    Result U E :=
  match self with
  | .Err _ => .Ok defaultValue
  | .Ok v => .Ok (fn v)

/-- From `Result.ts` `mapOrElse` (lines 84–89): `Ok (fnWhenFailure error)` on
`Err`, else `Ok (fnWhenSuccess value)` — again both branches wrap in `Ok`. -/
def Result.mapOrElse (fnWhenFailure : E → U) (fnWhenSuccess : T → U)
    (self : Result T E) : Result U E :=
  match self with
  | .Err e => .Ok (fnWhenFailure e)
  | .Ok v => .Ok (fnWhenSuccess v)

/-- From `Result.ts` `andThen` (lines 91–96): returns self on `Err`, else
`fn value`.  (The TypeScript error type widens to `E | F`; the embedding
keeps a single error type.) -/
def Result.andThen (fn : T → Result U E) (self : Result T E) : Result U E :=
  match self with
  | .Err e => .Err e
  | .Ok v => fn v

/-- From `Result.ts` `and` (lines 98–103): returns self on `Err`, else the
`result` argument. -/
def Result.and (result : Result U E) (self : Result T E) : Result U E :=
  match self with
  | .Err e => .Err e
  | .Ok _ => result

/-- From `Result.ts` `ok` (lines 105–108): `None` on `Err`, else
`Some value`. -/
def Result.ok : Result T E → Option T
  | .Err _ => .None
  | .Ok v => .Some v

/-- From `Result.ts` `inspect` (lines 110–116): on `Ok` it calls `fn` on the
value and returns self unchanged; on `Err` it returns self unchanged. -/
def Result.inspect (fn : T → U) (self : Result T E) : Result T E :=
  match self with
  | .Err _ => self
  | .Ok v =>
    let _ := fn v
    self

/-- From `Result.ts` `inspectErr` (lines 118–124): on `Err` it calls `fn` on
the error and returns self unchanged; on `Ok` it returns self unchanged. -/
def Result.inspectErr (fn : E → U) (self : Result T E) : Result T E :=
  match self with
  | .Ok _ => self
  | .Err e =>
    let _ := fn e
    self

/-- From `Result.ts` `flatten` (lines 126–130): outer `Err` stays, otherwise
the inner result is returned (the source returns `self.value` in both of its
remaining branches). -/
def Result.flatten : Result (Result T E) E → Result T E
  | .Err e => .Err e
  | .Ok inner => inner

/-- From `Result.ts` `intoOk` (lines 132–137): the value on `Ok`, otherwise
the host language's `undefined`, rendered here as `None`. -/
def Result.intoOk : Result T E → Option T
  | .Ok v => .Some v
  | .Err _ => .None

/-- From `Result.ts` `intoErr` (lines 139–144): the error on `Err`, otherwise
the host language's `undefined`, rendered here as `None`. -/
def Result.intoErr : Result T E → Option E
  | .Err e => .Some e
  | .Ok _ => .None

/-- From `Result.ts` `expect` (lines 146–154): on `Err` it throws
`message ++ ": " ++ stringify error`; on `Ok` it returns the value. -/
def Result.expect (stringify : E → String) (message : String)
    (self : Result T E) : Thrown T :=
  match self with
  | .Err e => .thrown (message ++ ": " ++ stringify e)
  | .Ok v => .ret v

/-- From `Result.ts` `expectErr` (lines 156–164): on `Ok` it throws
`message ++ ": " ++ stringify value`; on `Err` it returns the error. -/
def Result.expectErr (stringify : T → String) (message : String)
    (self : Result T E) : Thrown E :=
  match self with
  | .Ok v => .thrown (message ++ ": " ++ stringify v)
  | .Err e => .ret e

/-- From `Result.ts` `err` (lines 166–169): `None` on `Ok`, else
`Some error`. -/
def Result.err : Result T E → Option E
  | .Ok _ => .None
  | .Err e => .Some e

/-- From `Result.ts` `or` (lines 171–176): the `other` argument on `Err`,
else self. -/
def Result.or (other : Result T E) (self : Result T E) : Result T E :=
  match self with
  | .Err _ => other
  | .Ok _ => self

/-- From `Result.ts` `orElse` (lines 178–183): self on `Ok`, else
`fn error`. -/
def Result.orElse (fn : E → Result T F) (self : Result T E) : Result T F :=
  match self with
  | .Ok v => .Ok v
  | .Err e => fn e

/-- From `Result.ts` `transpose` (lines 185–192): on `Ok` holding `None` it
returns that `None`; on `Ok` holding `Some v` it returns `Some (Ok v)`; on
`Err` it returns `Some self`. -/
def Result.transpose : Result (Option T) E → Option (Result T E)
  | .Ok .None => .None
  | .Ok (.Some v) => .Some (.Ok v)
  | .Err e => .Some (.Err e)

/-- From `Result.ts` `unwrap` (lines 194–198): the value on `Ok`, otherwise
it throws `stringify error`. -/
def Result.unwrap (stringify : E → String) (self : Result T E) : Thrown T :=
  match self with
  | .Ok v => .ret v
  | .Err e => .thrown (stringify e)

/-- From `Result.ts` `unwrapErr` (lines 200–204): the error on `Err`,
otherwise it throws `stringify value`. -/
def Result.unwrapErr (stringify : T → String) (self : Result T E) :
    Thrown E :=
  match self with
  | .Err e => .ret e
  | .Ok v => .thrown (stringify v)

/-- From `Result.ts` `unwrapOr` (lines 206–211): `defaultValue` on `Err`,
else the value. -/
def Result.unwrapOr (defaultValue : T) (self : Result T E) : T :=
  match self with
  | .Err _ => defaultValue
  | .Ok v => v

/-- From `Result.ts` `unwrapOrElse` (lines 213–218): `callback error` on
`Err`, else the value. -/
def Result.unwrapOrElse (callback : E → T) (self : Result T E) : T :=
  match self with
  | .Err e => callback e
  | .Ok v => v

/-- Scanning an all-`Ok` block just moves its values onto the accumulator. -/
lemma Result.combineGo_map_ok (vs : List T) (acc : List T)
    (rs : List (Result T E)) :
    Result.combineGo acc (vs.map Result.Ok ++ rs) =
      Result.combineGo (acc ++ vs) rs := by
  induction vs generalizing acc with
  | nil => simp
  | cons v vs ih =>
    have h1 : Result.combineGo acc ((v :: vs).map Result.Ok ++ rs) =
        Result.combineGo (acc ++ [v]) (vs.map Result.Ok ++ rs) := rfl
    rw [h1, ih]
    congr 1
    simp

/-- Every list of results is either entirely `Ok`, or has a first `Err`
preceded by an all-`Ok` block. -/
lemma Result.combine_cover (rs : List (Result T E)) :
    (∃ vs : List T, rs = vs.map Result.Ok) ∨
      (∃ (vs : List T) (e : E) (rest : List (Result T E)),
        rs = vs.map Result.Ok ++ Result.Err e :: rest) := by
  induction rs with
  | nil => exact Or.inl ⟨[], rfl⟩
  | cons r rs ih =>
    cases r with
    | Err e => exact Or.inr ⟨[], e, rs, rfl⟩
    | Ok v =>
      cases ih with
      | inl h =>
        obtain ⟨vs, rfl⟩ := h
        exact Or.inl ⟨v :: vs, rfl⟩
      | inr h =>
        obtain ⟨vs, e, rest, rfl⟩ := h
        exact Or.inr ⟨v :: vs, e, rest, rfl⟩

/-- Claim C1: `combine` returns `Ok` of the list of all contained values in
input order when every input is `Ok`, and otherwise returns `Err` of the
first `Err` input's error, scanned left to right, never a later error.  The
third conjunct shows these two shapes cover every input list. -/
theorem combine_fail_fast {T E : Type} :
    (∀ vs : List T,
      Result.combine (E := E) (vs.map Result.Ok) = Result.Ok vs) ∧
    (∀ (vs : List T) (e : E) (rest : List (Result T E)),
      Result.combine (vs.map Result.Ok ++ Result.Err e :: rest) =
        Result.Err e) ∧
    (∀ rs : List (Result T E),
      (∃ vs : List T, rs = vs.map Result.Ok) ∨
        (∃ (vs : List T) (e : E) (rest : List (Result T E)),
          rs = vs.map Result.Ok ++ Result.Err e :: rest)) := by
  refine ⟨fun vs => ?_, fun vs e rest => ?_, Result.combine_cover⟩
  · have h := Result.combineGo_map_ok vs ([] : List T) ([] : List (Result T E))
    simpa [Result.combine, Result.combineGo] using h
  · have h := Result.combineGo_map_ok vs ([] : List T)
      (Result.Err e :: rest)
    simpa [Result.combine, Result.combineGo] using h

/-- Claim C9: `combine` applied to zero results returns `Ok` of the empty
list. -/
theorem combine_empty {T E : Type} :
    Result.combine ([] : List (Result T E)) = Result.Ok ([] : List T) := rfl

/-- Claim C2: `mapOr` and `mapOrElse` always wrap their outcome in `Ok`:
`Ok (fn value)` or `Ok defaultValue` / `Ok (fnWhenFailure error)`, never a
bare value and never an `Err` (last conjunct: the output is `Ok` on every
input). -/
theorem mapOr_mapOrElse_wrap_in_success {T E U : Type} :
    (∀ (d : U) (f : T → U) (v : T),
      Result.mapOr (E := E) d f (Result.Ok v) = Result.Ok (f v)) ∧
    (∀ (d : U) (f : T → U) (e : E),
      Result.mapOr d f (Result.Err e) = Result.Ok d) ∧
    (∀ (g : E → U) (f : T → U) (v : T),
      Result.mapOrElse g f (Result.Ok v) = Result.Ok (f v)) ∧
    (∀ (g : E → U) (f : T → U) (e : E),
      Result.mapOrElse g f (Result.Err e) = Result.Ok (g e)) ∧
    (∀ (d : U) (f : T → U) (self : Result T E),
      (Result.mapOr d f self).isOk = true) ∧
    (∀ (g : E → U) (f : T → U) (self : Result T E),
      (Result.mapOrElse g f self).isOk = true) := by
  refine ⟨fun d f v => rfl, fun d f e => rfl, fun g f v => rfl,
    fun g f e => rfl, fun d f self => ?_, fun g f self => ?_⟩ <;>
    cases self <;> rfl

/-- Claim C3: `Result.transpose` maps `Ok (Some v)` to `Some (Ok v)`,
`Ok None` to `None`, and `Err e` to `Some (Err e)`; moreover
`Option.transpose` and `Result.transpose` are mutual inverses on all values
of these shapes (the two round-trip conjuncts range over every value of the
respective nested type). -/
theorem transpose_duality {T E : Type} :
    (∀ v : T, Result.transpose (E := E) (Result.Ok (Option.Some v)) =
      Option.Some (Result.Ok v)) ∧
    (Result.transpose (T := T) (E := E) (Result.Ok Option.None) =
      Option.None) ∧
    (∀ e : E, Result.transpose (T := T) (Result.Err e) =
      Option.Some (Result.Err e)) ∧
    (∀ x : Result (Option T) E,
      Option.transpose (Result.transpose x) = x) ∧
    (∀ y : Option (Result T E),
      Result.transpose (Option.transpose y) = y) := by
  refine ⟨fun v => rfl, rfl, fun e => rfl, fun x => ?_, fun y => ?_⟩
  · cases x with
    | Ok o => cases o <;> rfl
    | Err e => rfl
  · cases y with
    | Some r => cases r <;> rfl
    | None => rfl

/-- Claim C4: the four extractors raise exactly when applied to the wrong
variant: `unwrap`/`expect` raise precisely on `Err`, `unwrapErr`/`expectErr`
precisely on `Ok`.  Every other combinator of the embedding returns a plain
container or value (its codomain is not `Thrown`), mirroring the fact that
the four extractors are the only functions in `Result.ts` containing a
`throw`. -/
theorem extractors_raise_iff_wrong_variant {T E : Type} :
    (∀ (s : E → String) (self : Result T E),
      (Result.unwrap s self).isThrown = self.isErr) ∧
    (∀ (s : T → String) (self : Result T E),
      (Result.unwrapErr s self).isThrown = self.isOk) ∧
    (∀ (s : E → String) (m : String) (self : Result T E),
      (Result.expect s m self).isThrown = self.isErr) ∧
    (∀ (s : T → String) (m : String) (self : Result T E),
      (Result.expectErr s m self).isThrown = self.isOk) := by
  refine ⟨fun s self => ?_, fun s self => ?_, fun s m self => ?_,
    fun s m self => ?_⟩ <;> cases self <;> rfl

/-- Claim C5: `unwrap` on `Err e` raises with message `stringify e` (hence
the message contains the serialized rendering of the error), `expect` raises
with the caller's message plus `": "` plus the serialized payload, and
`unwrapErr`/`expectErr` behave symmetrically on `Ok v`; the final conjunct
records that each `expect`-style message literally extends the serialized
payload with a prefix. -/
theorem extractor_failure_messages {T E : Type} :
    (∀ (s : E → String) (e : E),
      Result.unwrap (T := T) s (Result.Err e) = Thrown.thrown (s e)) ∧
    (∀ (s : E → String) (m : String) (e : E),
      Result.expect (T := T) s m (Result.Err e) =
        Thrown.thrown (m ++ ": " ++ s e)) ∧
    (∀ (s : T → String) (v : T),
      Result.unwrapErr (E := E) s (Result.Ok v) = Thrown.thrown (s v)) ∧
    (∀ (s : T → String) (m : String) (v : T),
      Result.expectErr (E := E) s m (Result.Ok v) =
        Thrown.thrown (m ++ ": " ++ s v)) ∧
    (∀ (s : E → String) (m : String) (e : E),
      ∃ p : String, m ++ ": " ++ s e = p ++ s e) := by
  refine ⟨fun s e => rfl, fun s m e => rfl, fun s v => rfl,
    fun s m v => rfl, fun s m e => ⟨m ++ ": ", ?_⟩⟩
  apply String.ext
  simp [String.data_append]

/-- Claim C6: combinators that need no transformation hand back their input
container: `inspect` and `inspectErr` return `self` on every input, and `or`
returns `self` on an `Ok` input.  In this embedding the definitions return
the very `self` term they received, the value-level counterpart of the
reference identity the source exhibits by returning `self` unchanged. -/
theorem untransformed_combinators_return_self {T E U : Type} :
    (∀ (f : T → U) (self : Result T E), Result.inspect f self = self) ∧
    (∀ (f : E → U) (self : Result T E), Result.inspectErr f self = self) ∧
    (∀ (other : Result T E) (v : T),
      Result.or other (Result.Ok v) = Result.Ok v) := by
  refine ⟨fun f self => ?_, fun f self => ?_, fun other v => rfl⟩ <;>
    cases self <;> rfl

/-- Claim C7: `and` and `andThen` short-circuit on `Err`: for every `Err`
input they return that `Err` unchanged, for every callback `fn` (so the
outcome never depends on `fn`, which is therefore never consulted); on
`Ok v` they return `other` and `fn v` respectively. -/
theorem and_andThen_short_circuit {T E U : Type} :
    (∀ (fn : T → Result U E) (e : E),
      Result.andThen fn (Result.Err e) = Result.Err e) ∧
    (∀ (other : Result U E) (e : E),
      Result.and (T := T) other (Result.Err e) = Result.Err e) ∧
    (∀ (fn : T → Result U E) (v : T),
      Result.andThen fn (Result.Ok v) = fn v) ∧
    (∀ (other : Result U E) (v : T),
      Result.and other (Result.Ok v) = other) :=
  ⟨fun _ _ => rfl, fun _ _ => rfl, fun _ _ => rfl, fun _ _ => rfl⟩

/-- Claim C8: the bridges round-trip: `okOr e` then `ok` restores
`Some v` and `None` unchanged; and `ok` maps `Ok v` to `Some v` and `Err e`
to `None`. -/
theorem bridge_round_trip {T E : Type} :
    (∀ (v : T) (e : E),
      Result.ok (Option.okOr e (Option.Some v)) = Option.Some v) ∧
    (∀ e : E,
      Result.ok (Option.okOr (T := T) e Option.None) = Option.None) ∧
    (∀ v : T, Result.ok (E := E) (Result.Ok v) = Option.Some v) ∧
    (∀ e : E, Result.ok (T := T) (Result.Err e) = Option.None) :=
  ⟨fun _ _ => rfl, fun _ => rfl, fun _ => rfl, fun _ => rfl⟩

/-- Claim C10: `ok` and `err` partition the container's content: on `Ok v`
exactly `ok` is `Some` (carrying `v`), on `Err e` exactly `err` is `Some`
(carrying `e`); the last conjunct states the exactly-one-`Some` law for
every result. -/
theorem ok_err_partition {T E : Type} :
    (∀ v : T, Result.ok (E := E) (Result.Ok v) = Option.Some v) ∧
    (∀ v : T, Result.err (E := E) (Result.Ok v) = Option.None) ∧
    (∀ e : E, Result.ok (T := T) (Result.Err e) = Option.None) ∧
    (∀ e : E, Result.err (T := T) (Result.Err e) = Option.Some e) ∧
    (∀ r : Result T E,
      (Result.ok r).isSome = !(Result.err r).isSome) := by
  refine ⟨fun v => rfl, fun v => rfl, fun e => rfl, fun e => rfl,
    fun r => ?_⟩
  cases r <;> rfl

end Neono
